import Mathlib

/-
Verification of the trilinear interpolation CUDA kernels in
src/interpolation_kernel.cu (repository trilinear_interpolation_cutorch).

The two kernels are embarrassingly parallel maps over a 2D grid of
(cube, channel) pairs.  We embed them shallowly: tensors become records
holding their sizes and a total data function, the per-thread body becomes
a pure function over exact rational arithmetic, and the CUDA launch grid
becomes an explicit thread-identifier type with the derived (n, f) pair and
the boundary guard of the kernels.
-/

namespace Trilinear

/-- A 2-dimensional tensor (shape recorded, data total over ℕ indices;
reads outside the recorded shape model out-of-bounds accesses, which in the
real program are undefined). -/
structure Tensor2 where
  size0 : ℕ
  size1 : ℕ
  data : ℕ → ℕ → ℚ

/-- A 3-dimensional tensor. -/
structure Tensor3 where
  size0 : ℕ
  size1 : ℕ
  size2 : ℕ
  data : ℕ → ℕ → ℕ → ℚ

/-- Normalization from [-1,1] to [0,1]: `u = (p + 1)/2` (lines 14-16 / 78-80). -/
def normalize (p : ℚ) : ℚ := (p + 1) / 2

/-- Interpolation coefficient `a = (1-v)*(1-w)` (line 19 / 83). -/
def coefA (v w : ℚ) : ℚ := (1 - v) * (1 - w)

/-- Interpolation coefficient `b = (1-v)*w` (line 20 / 84). -/
def coefB (v w : ℚ) : ℚ := (1 - v) * w

/-- Interpolation coefficient `c = v*(1-w)` (line 21 / 85). -/
def coefC (v w : ℚ) : ℚ := v * (1 - w)

/-- Interpolation coefficient `d = 1-a-b-c` (line 22 / 86), by complement. -/
def coefD (v w : ℚ) : ℚ := 1 - coefA v w - coefB v w - coefC v w

/-- Body of `trilinear_forward_kernel` for one in-guard (n, f) pair
(lines 14-31 of src/interpolation_kernel.cu). -/
def forwardBody (features : Tensor3) (points : Tensor2) (n f : ℕ) : ℚ :=
  let u := normalize (points.data n 0)
  let v := normalize (points.data n 1)
  let w := normalize (points.data n 2)
  let a := coefA v w
  let b := coefB v w
  let c := coefC v w
  let d := coefD v w
  (1 - u) * (a * features.data n 0 f +
             b * features.data n 1 f +
             c * features.data n 2 f +
             d * features.data n 3 f) +
  u * (a * features.data n 4 f +
       b * features.data n 5 f +
       c * features.data n 6 f +
       d * features.data n 7 f)

/-- Body of `trilinear_backward_kernel` for one in-guard (n, f) pair and corner
index `k` in 0..7 (lines 76-96 of src/interpolation_kernel.cu): the eight write
statements `dL_dFeatures[n][k][f] = weight_k * dL_dfeatInterpOutput[n][f]`. -/
def backwardBody (dL_dfeatInterpOutput points : Tensor2) (n k f : ℕ) : ℚ :=
  let u := normalize (points.data n 0)
  let v := normalize (points.data n 1)
  let w := normalize (points.data n 2)
  let a := coefA v w
  let b := coefB v w
  let c := coefC v w
  let d := coefD v w
  let g := dL_dfeatInterpOutput.data n f
  if k = 0 then (1 - u) * a * g
  else if k = 1 then (1 - u) * b * g
  else if k = 2 then (1 - u) * c * g
  else if k = 3 then (1 - u) * d * g
  else if k = 4 then u * a * g
  else if k = 5 then u * b * g
  else if k = 6 then u * c * g
  else if k = 7 then u * d * g
  else 0

/-- The (N, F) output tensor produced by the forward launch: every (n, f)
inside the kernel guard `n < features.size(0) && f < features.size(2)` is
written with the kernel body; the remaining slots of the `torch::empty`
buffer are uninitialized and modeled by the junk value 0. -/
def forwardOutput (features : Tensor3) (points : Tensor2) : Tensor2 :=
  { size0 := features.size0
    size1 := features.size2
    data := fun n f =>
      if n < features.size0 ∧ f < features.size2 then
        forwardBody features points n f
      else 0 }

/-- The (N, 8, F) gradient tensor produced by the backward launch; as in
`forwardOutput`, slots never written by an in-guard thread keep the junk
value 0 of the uninitialized `torch::empty` buffer.  The guard reads only
`features.size(0)` and `features.size(2)`; no feature value is read. -/
def backwardOutput (dL_dfeatInterpOutput : Tensor2) (features : Tensor3)
    (points : Tensor2) : Tensor3 :=
  { size0 := features.size0
    size1 := 8
    size2 := features.size2
    data := fun n k f =>
      if n < features.size0 ∧ k < 8 ∧ f < features.size2 then
        backwardBody dL_dfeatInterpOutput points n k f
      else 0 }

/-- Shape-mismatch failure that a fail-fast host function could surface.
`trilinear_forward_cu` (lines 36-63) contains no shape check, so the error
branch below is never taken; the `Except` return type only records where a
rejection would be reported. -/
inductive ShapeError where
  | mismatch : ShapeError
deriving DecidableEq

/-- Embedding of the host function `trilinear_forward_cu` (lines 36-63):
reads `N = features.size(0)`, `F = features.size(2)`, allocates the (N, F)
output and dispatches the forward kernel unconditionally.  The source
performs no validation of `points` or of consistency between arguments. -/
def trilinear_forward_cu (features : Tensor3) (points : Tensor2) :
    Except ShapeError Tensor2 :=
  Except.ok (forwardOutput features points)

/-- Embedding of the host function `trilinear_backward_cu` (lines 100-127):
reads `N = features.size(0)`, `F = features.size(2)`, allocates the (N, 8, F)
gradient buffer and dispatches the backward kernel unconditionally, with no
shape validation of any argument. -/
def trilinear_backward_cu (dL_dfeatInterpOutput : Tensor2)
    (features : Tensor3) (points : Tensor2) : Except ShapeError Tensor3 :=
  Except.ok (backwardOutput dL_dfeatInterpOutput features points)

/-- Reads entry (n, f) of the tensor a host call returned, or `none` when the
call failed. -/
def outputAt (r : Except ShapeError Tensor2) (n f : ℕ) : Option ℚ :=
  match r with
  | Except.ok t => some (t.data n f)
  | Except.error _ => none

/-- Tile side length: `numThreadsPerBlock(16, 16, 1)` (lines 45 / 108). -/
def tileDim : ℕ := 16

/-- Ceiling division, as computed for the block counts
`(N + numThreadsPerBlock.x - 1) / numThreadsPerBlock.x` (lines 46 / 109). -/
def ceilDiv (a b : ℕ) : ℕ := (a + b - 1) / b

/-- One CUDA thread of a 2D launch: its block index and intra-block index in
each of the two used dimensions. -/
@[ext]
structure ThreadId where
  blockIdxX : ℕ
  blockIdxY : ℕ
  threadIdxX : ℕ
  threadIdxY : ℕ
deriving DecidableEq

/-- The cube index derived by a thread: `n = blockDim.x * blockIdx.x +
threadIdx.x` (line 9 / 73). -/
def ThreadId.n (t : ThreadId) : ℕ := tileDim * t.blockIdxX + t.threadIdxX

/-- The channel index derived by a thread: `f = blockDim.y * blockIdx.y +
threadIdx.y` (line 10 / 74). -/
def ThreadId.f (t : ThreadId) : ℕ := tileDim * t.blockIdxY + t.threadIdxY

/-- Membership of a thread in the launch grid
`numBlocks(ceil(N/16), ceil(F/16)) × numThreadsPerBlock(16, 16)`. -/
def ThreadId.inGrid (N F : ℕ) (t : ThreadId) : Prop :=
  t.blockIdxX < ceilDiv N tileDim ∧ t.blockIdxY < ceilDiv F tileDim ∧
  t.threadIdxX < tileDim ∧ t.threadIdxY < tileDim

instance (N F : ℕ) (t : ThreadId) : Decidable (t.inGrid N F) := by
  unfold ThreadId.inGrid; infer_instance

/-- The write performed by one thread of the forward kernel: `some` of the
written location and value when the boundary guard
`n < features.size(0) && f < features.size(2)` (line 12) holds, `none`
otherwise (the thread performs no work). -/
def forwardThreadWrite (features : Tensor3) (points : Tensor2)
    (t : ThreadId) : Option ((ℕ × ℕ) × ℚ) :=
  if t.n < features.size0 ∧ t.f < features.size2 then
    some ((t.n, t.f), forwardBody features points t.n t.f)
  else none

/-- The feature tensor with all 8 corner feature vectors of cube `n` scaled
by `k` and every other cube unchanged (used to state linearity in Features). -/
def scaleCube (features : Tensor3) (n : ℕ) (k : ℚ) : Tensor3 :=
  { features with
    data := fun m c f =>
      if m = n then k * features.data m c f else features.data m c f }

/-- The corner selected by the indexing convention of §4.1 for normalized
coordinates (u, v, w) ∈ \x7b0,1\x7d^3: corners 0..3 are the u=0 face with
weights a, b, c, d (i.e. (v,w) = (0,0), (0,1), (1,0), (1,1)), corners 4..7
the u=1 face with the same weights. -/
def cornerIndex (bu bv bw : Bool) : ℕ :=
  (if bu then 4 else 0) + (if bv then 2 else 0) + (if bw then 1 else 0)

/-- Concrete scenario of spec §8: N=1, F=1, u=0 face all zero, u=1 face all
one. -/
def scenFeatures : Tensor3 :=
  { size0 := 1, size1 := 8, size2 := 1
    data := fun _ k _ => if k ≤ 3 then 0 else 1 }

/-- Concrete scenario of spec §8: Points[0] = [0, -1, -1]. -/
def scenPoints : Tensor2 :=
  { size0 := 1, size1 := 3
    data := fun _ j => if j = 0 then 0 else -1 }

/-- Concrete scenario of spec §8: UpstreamGradient[0,0] = 2. -/
def scenUpstream : Tensor2 :=
  { size0 := 1, size1 := 1
    data := fun _ _ => 2 }

/-- A points tensor whose last axis is 2, not 3: a shape-mismatched input. -/
def badPoints : Tensor2 :=
  { size0 := 1, size1 := 2
    data := fun _ _ => 0 }

/-- All-ones feature tensor with N=1, F=1. -/
def onesFeatures : Tensor3 :=
  { size0 := 1, size1 := 8, size2 := 1
    data := fun _ _ _ => 1 }

/-- Feature tensor with N=17, F=5, for exercising the launch tiling on sizes
not divisible by 16. -/
def gridFeatures : Tensor3 :=
  { size0 := 17, size1 := 8, size2 := 5
    data := fun _ _ _ => 0 }

/-- Points tensor with N=17 rows. -/
def gridPoints : Tensor2 :=
  { size0 := 17, size1 := 3
    data := fun _ _ => 0 }

/-- Feature tensor whose corner k carries the value k, for the corner
exactness witness. -/
def cornFeatures : Tensor3 :=
  { size0 := 1, size1 := 8, size2 := 1
    data := fun _ k _ => (k : ℚ) }

/-- Points tensor at the corner (px, py, pz) = (1, -1, 1), i.e.
(u, v, w) = (1, 0, 1). -/
def cornPoints : Tensor2 :=
  { size0 := 1, size1 := 3
    data := fun _ j => if j = 1 then -1 else 1 }

/-- First input set for cross-cube independence: 2 cubes, agreeing with
`featB` on cube 0 and differing on cube 1. -/
def featA : Tensor3 :=
  { size0 := 2, size1 := 8, size2 := 1
    data := fun n k _ => if n = 0 then (k : ℚ) else 7 }

/-- Second input set for cross-cube independence: same cube 0 as `featA`,
different cube 1. -/
def featB : Tensor3 :=
  { size0 := 2, size1 := 8, size2 := 1
    data := fun n k _ => if n = 0 then (k : ℚ) else -5 }

/-- Points agreeing with `ptsB` on cube 0 only. -/
def ptsA : Tensor2 :=
  { size0 := 2, size1 := 3
    data := fun n _ => if n = 0 then 0 else 1 }

/-- Points agreeing with `ptsA` on cube 0 only. -/
def ptsB : Tensor2 :=
  { size0 := 2, size1 := 3
    data := fun n _ => if n = 0 then 0 else -1 }

/-- Upstream gradient agreeing with `gradB` on cube 0 only. -/
def gradA : Tensor2 :=
  { size0 := 2, size1 := 1
    data := fun n _ => if n = 0 then 2 else 9 }

/-- Upstream gradient agreeing with `gradA` on cube 0 only. -/
def gradB : Tensor2 :=
  { size0 := 2, size1 := 1
    data := fun n _ => if n = 0 then 2 else -9 }

/-- Feature tensor of shape (1, 8, 1) holding 3 everywhere. -/
def featC : Tensor3 :=
  { size0 := 1, size1 := 8, size2 := 1
    data := fun _ _ _ => 3 }

/-- Feature tensor of shape (1, 8, 1) holding -4 everywhere: same shape as
`featC`, entirely different values. -/
def featD : Tensor3 :=
  { size0 := 1, size1 := 8, size2 := 1
    data := fun _ _ _ => -4 }

/-- C6: partition of unity — for every (u, v, w), a + b + c + d = 1 by the
complement construction of d, and hence the 8 forward weights
(1-u)a, (1-u)b, (1-u)c, (1-u)d, ua, ub, uc, ud sum exactly to 1, with no
restriction of (u, v, w) to [0,1]. -/
theorem weights_partition_of_unity (u v w : ℚ) :
    coefA v w + coefB v w + coefC v w + coefD v w = 1 ∧
    (1 - u) * coefA v w + (1 - u) * coefB v w + (1 - u) * coefC v w +
      (1 - u) * coefD v w + u * coefA v w + u * coefB v w + u * coefC v w +
      u * coefD v w = 1 := by
  simp only [coefD, coefA, coefB, coefC]
  constructor <;> ring

/-- C1: for every n < N and f < F, the forward launch writes
Output[n,f] = (1-u)(a·Feat[n,0,f] + b·Feat[n,1,f] + c·Feat[n,2,f] + d·Feat[n,3,f])
            + u(a·Feat[n,4,f] + b·Feat[n,5,f] + c·Feat[n,6,f] + d·Feat[n,7,f])
with u = (px+1)/2, v = (py+1)/2, w = (pz+1)/2 read from Points[n],
a = (1-v)(1-w), b = (1-v)w, c = v(1-w), d = 1-a-b-c. -/
theorem forward_writes_formula (features : Tensor3) (points : Tensor2)
    (n f : ℕ) (hn : n < features.size0) (hf : f < features.size2) :
    (forwardOutput features points).data n f =
      (let u := (points.data n 0 + 1) / 2
       let v := (points.data n 1 + 1) / 2
       let w := (points.data n 2 + 1) / 2
       let a := (1 - v) * (1 - w)
       let b := (1 - v) * w
       let c := v * (1 - w)
       let d := 1 - a - b - c
       (1 - u) * (a * features.data n 0 f + b * features.data n 1 f +
                  c * features.data n 2 f + d * features.data n 3 f) +
       u * (a * features.data n 4 f + b * features.data n 5 f +
            c * features.data n 6 f + d * features.data n 7 f)) := by
  simp only [forwardOutput]
  rw [if_pos ⟨hn, hf⟩]
  rfl

/-- Witness for C1 at the concrete scenario of spec §8: the output value is
0.5 there. -/
theorem forward_writes_formula_witness :
    0 < scenFeatures.size0 ∧ 0 < scenFeatures.size2 ∧
    (forwardOutput scenFeatures scenPoints).data 0 0 =
      (let u := (scenPoints.data 0 0 + 1) / 2
       let v := (scenPoints.data 0 1 + 1) / 2
       let w := (scenPoints.data 0 2 + 1) / 2
       let a := (1 - v) * (1 - w)
       let b := (1 - v) * w
       let c := v * (1 - w)
       let d := 1 - a - b - c
       (1 - u) * (a * scenFeatures.data 0 0 0 + b * scenFeatures.data 0 1 0 +
                  c * scenFeatures.data 0 2 0 + d * scenFeatures.data 0 3 0) +
       u * (a * scenFeatures.data 0 4 0 + b * scenFeatures.data 0 5 0 +
            c * scenFeatures.data 0 6 0 + d * scenFeatures.data 0 7 0)) ∧
    (forwardOutput scenFeatures scenPoints).data 0 0 = 1 / 2 :=
  ⟨by decide, by decide,
   forward_writes_formula scenFeatures scenPoints 0 0 (by decide) (by decide),
   by norm_num [forwardOutput, forwardBody, normalize, coefA, coefB, coefC,
     coefD, scenFeatures, scenPoints]⟩

/-- C2: for every n < N and f < F, the backward launch writes
FeatureGradient[n,k,f] = weight_k · UpstreamGradient[n,f], where the weights
for corners 0..3 are (1-u)a, (1-u)b, (1-u)c, (1-u)d and for corners 4..7 are
ua, ub, uc, ud, with u, a, b, c, d recomputed from Points[n] exactly as in
the forward derivation. -/
theorem backward_writes_weighted_gradient (dL : Tensor2) (features : Tensor3)
    (points : Tensor2) (n f : ℕ)
    (hn : n < features.size0) (hf : f < features.size2) :
    (let u := (points.data n 0 + 1) / 2
     let v := (points.data n 1 + 1) / 2
     let w := (points.data n 2 + 1) / 2
     let a := (1 - v) * (1 - w)
     let b := (1 - v) * w
     let c := v * (1 - w)
     let d := 1 - a - b - c
     let g := dL.data n f
     let grad := backwardOutput dL features points
     grad.data n 0 f = (1 - u) * a * g ∧
     grad.data n 1 f = (1 - u) * b * g ∧
     grad.data n 2 f = (1 - u) * c * g ∧
     grad.data n 3 f = (1 - u) * d * g ∧
     grad.data n 4 f = u * a * g ∧
     grad.data n 5 f = u * b * g ∧
     grad.data n 6 f = u * c * g ∧
     grad.data n 7 f = u * d * g) := by
  refine ⟨?_, ?_, ?_, ?_, ?_, ?_, ?_, ?_⟩ <;>
  · simp only [backwardOutput]
    rw [if_pos ⟨hn, by norm_num, hf⟩]
    rfl

/-- Witness for C2 at the concrete scenario of spec §8: with
UpstreamGradient[0,0] = 2 the gradient row is [1,0,0,0,1,0,0,0]. -/
theorem backward_writes_weighted_gradient_witness :
    0 < scenFeatures.size0 ∧ 0 < scenFeatures.size2 ∧
    (let u := (scenPoints.data 0 0 + 1) / 2
     let v := (scenPoints.data 0 1 + 1) / 2
     let w := (scenPoints.data 0 2 + 1) / 2
     let a := (1 - v) * (1 - w)
     let b := (1 - v) * w
     let c := v * (1 - w)
     let d := 1 - a - b - c
     let g := scenUpstream.data 0 0
     let grad := backwardOutput scenUpstream scenFeatures scenPoints
     grad.data 0 0 0 = (1 - u) * a * g ∧
     grad.data 0 1 0 = (1 - u) * b * g ∧
     grad.data 0 2 0 = (1 - u) * c * g ∧
     grad.data 0 3 0 = (1 - u) * d * g ∧
     grad.data 0 4 0 = u * a * g ∧
     grad.data 0 5 0 = u * b * g ∧
     grad.data 0 6 0 = u * c * g ∧
     grad.data 0 7 0 = u * d * g) ∧
    (backwardOutput scenUpstream scenFeatures scenPoints).data 0 0 0 = 1 ∧
    (backwardOutput scenUpstream scenFeatures scenPoints).data 0 1 0 = 0 ∧
    (backwardOutput scenUpstream scenFeatures scenPoints).data 0 4 0 = 1 :=
  ⟨by decide, by decide,
   backward_writes_weighted_gradient scenUpstream scenFeatures scenPoints 0 0
     (by decide) (by decide),
   by norm_num [backwardOutput, backwardBody, normalize, coefA, coefB, coefC,
     coefD, scenUpstream, scenPoints, scenFeatures],
   by norm_num [backwardOutput, backwardBody, normalize, coefA, coefB, coefC,
     coefD, scenUpstream, scenPoints, scenFeatures],
   by norm_num [backwardOutput, backwardBody, normalize, coefA, coefB, coefC,
     coefD, scenUpstream, scenPoints, scenFeatures]⟩

/-- C3: the backward kernel is the exact gradient of the forward kernel: over
exact arithmetic, the pairing sum Σ over n and f of g[n,f]·Output[n,f] equals
Σ over n, k, f of FeatureGradient[n,k,f]·Features[n,k,f], for every Features,
Points and upstream gradient g. -/
theorem backward_is_exact_gradient (dL : Tensor2) (features : Tensor3)
    (points : Tensor2) :
    (∑ n ∈ Finset.range features.size0, ∑ f ∈ Finset.range features.size2,
      dL.data n f * (forwardOutput features points).data n f)
    = ∑ n ∈ Finset.range features.size0, ∑ k ∈ Finset.range 8,
        ∑ f ∈ Finset.range features.size2,
        (backwardOutput dL features points).data n k f * features.data n k f := by
  refine Finset.sum_congr rfl fun n hn => ?_
  rw [Finset.sum_comm]
  refine Finset.sum_congr rfl fun f hf => ?_
  have hn2 := Finset.mem_range.mp hn
  have hf2 := Finset.mem_range.mp hf
  simp only [Finset.sum_range_succ, Finset.sum_range_zero, forwardOutput,
    backwardOutput]
  norm_num [hn2, hf2, forwardBody, backwardBody, normalize, coefA, coefB,
    coefC, coefD]
  ring

/-- C7: corner exactness — if the normalized coordinates (u, v, w) of a query
point all lie in \x7b0,1\x7d (encoded by the three Booleans), then for every
channel f the forward output equals the feature stored at the corner selected
by the §4.1 indexing convention, over exact arithmetic. -/
theorem corner_exactness (features : Tensor3) (points : Tensor2) (n f : ℕ)
    (hn : n < features.size0) (hf : f < features.size2) (bu bv bw : Bool)
    (hu : normalize (points.data n 0) = if bu then 1 else 0)
    (hv : normalize (points.data n 1) = if bv then 1 else 0)
    (hw : normalize (points.data n 2) = if bw then 1 else 0) :
    (forwardOutput features points).data n f =
      features.data n (cornerIndex bu bv bw) f := by
  simp only [forwardOutput]
  rw [if_pos ⟨hn, hf⟩]
  simp only [forwardBody, hu, hv, hw, coefA, coefB, coefC, coefD]
  cases bu <;> cases bv <;> cases bw <;> simp [cornerIndex]

/-- Witness for C7: the point (px, py, pz) = (1, -1, 1) has (u, v, w) =
(1, 0, 1) and selects corner 5; the features store the corner index as value,
and the output is indeed the value at corner 5. -/
theorem corner_exactness_witness :
    0 < cornFeatures.size0 ∧ 0 < cornFeatures.size2 ∧
    normalize (cornPoints.data 0 0) = (if true then (1 : ℚ) else 0) ∧
    normalize (cornPoints.data 0 1) = (if false then (1 : ℚ) else 0) ∧
    normalize (cornPoints.data 0 2) = (if true then (1 : ℚ) else 0) ∧
    (forwardOutput cornFeatures cornPoints).data 0 0 =
      cornFeatures.data 0 (cornerIndex true false true) 0 :=
  ⟨by decide, by decide,
   by norm_num [normalize, cornPoints],
   by norm_num [normalize, cornPoints],
   by norm_num [normalize, cornPoints],
   corner_exactness cornFeatures cornPoints 0 0 (by decide) (by decide)
     true false true
     (by norm_num [normalize, cornPoints])
     (by norm_num [normalize, cornPoints])
     (by norm_num [normalize, cornPoints])⟩

/-- C8: linearity in Features — for fixed Points, scaling all 8 corner
feature vectors of cube n by a scalar k scales that cube's output row by k,
over exact arithmetic. -/
theorem forward_linear_in_features (features : Tensor3) (points : Tensor2)
    (k : ℚ) (n f : ℕ) (hn : n < features.size0) (hf : f < features.size2) :
    (forwardOutput (scaleCube features n k) points).data n f =
      k * (forwardOutput features points).data n f := by
  simp only [forwardOutput, scaleCube]
  rw [if_pos ⟨hn, hf⟩, if_pos ⟨hn, hf⟩]
  simp only [forwardBody, eq_self_iff_true, if_true]
  ring

/-- Witness for C8 on the §8 scenario, scaling cube 0 by 3. -/
theorem forward_linear_in_features_witness :
    0 < scenFeatures.size0 ∧ 0 < scenFeatures.size2 ∧
    (forwardOutput (scaleCube scenFeatures 0 3) scenPoints).data 0 0 =
      3 * (forwardOutput scenFeatures scenPoints).data 0 0 :=
  ⟨by decide, by decide,
   forward_linear_in_features scenFeatures scenPoints 3 0 0
     (by decide) (by decide)⟩

/-- C9: cross-cube independence — two runs whose inputs have the same shape
and agree on cube m's features, point row and upstream gradient row produce
identical forward output row m and identical backward gradient slice m, no
matter how the data of other cubes differs. -/
theorem cross_cube_independence (feat1 feat2 : Tensor3)
    (pts1 pts2 dL1 dL2 : Tensor2) (m : ℕ)
    (hN : feat1.size0 = feat2.size0) (hF : feat1.size2 = feat2.size2)
    (hfeat : ∀ k f, feat1.data m k f = feat2.data m k f)
    (hpts : ∀ j, pts1.data m j = pts2.data m j)
    (hdL : ∀ f, dL1.data m f = dL2.data m f) :
    (∀ f, (forwardOutput feat1 pts1).data m f =
      (forwardOutput feat2 pts2).data m f) ∧
    (∀ k f, (backwardOutput dL1 feat1 pts1).data m k f =
      (backwardOutput dL2 feat2 pts2).data m k f) := by
  constructor
  · intro f
    simp only [forwardOutput, forwardBody, normalize, coefA, coefB, coefC,
      coefD, hN, hF, hfeat, hpts]
  · intro k f
    simp only [backwardOutput, backwardBody, normalize, coefA, coefB, coefC,
      coefD, hN, hF, hpts, hdL]

/-- Witness for C9: two input pairs sharing cube 0 and differing entirely on
cube 1 give the same output and the same gradient at cube 0. -/
theorem cross_cube_independence_witness :
    featA.size0 = featB.size0 ∧ featA.size2 = featB.size2 ∧
    (forwardOutput featA ptsA).data 0 0 = (forwardOutput featB ptsB).data 0 0 ∧
    (backwardOutput gradA featA ptsA).data 0 4 0 =
      (backwardOutput gradB featB ptsB).data 0 4 0 :=
  ⟨rfl, rfl,
   (cross_cube_independence featA featB ptsA ptsB gradA gradB 0 rfl rfl
     (fun _ _ => rfl) (fun _ => rfl) (fun _ => rfl)).1 0,
   (cross_cube_independence featA featB ptsA ptsB gradA gradB 0 rfl rfl
     (fun _ _ => rfl) (fun _ => rfl) (fun _ => rfl)).2 4 0⟩

/-- C10: the backward call reads only the shape of Features
(features.size(0) and features.size(2)), never a feature value, so two
Features arrays of equal shape yield exactly the same FeatureGradient for
the same Points and UpstreamGradient. -/
theorem backward_ignores_feature_values (dL : Tensor2) (feat1 feat2 : Tensor3)
    (points : Tensor2) (hN : feat1.size0 = feat2.size0)
    (hF : feat1.size2 = feat2.size2) :
    trilinear_backward_cu dL feat1 points = trilinear_backward_cu dL feat2 points := by
  simp only [trilinear_backward_cu, backwardOutput, hN, hF]

/-- Witness for C10: all-3 features and all-(-4) features of the same shape
give identical backward results. -/
theorem backward_ignores_feature_values_witness :
    featC.size0 = featD.size0 ∧ featC.size2 = featD.size2 ∧
    trilinear_backward_cu scenUpstream featC scenPoints =
      trilinear_backward_cu scenUpstream featD scenPoints :=
  ⟨rfl, rfl,
   backward_ignores_feature_values scenUpstream featC featD scenPoints rfl rfl⟩

/-- Helper for the launch configuration: an in-range index lands in one of
the ceil-divided blocks. -/
theorem div_lt_ceilDiv (n N : ℕ) (h : n < N) : n / tileDim < ceilDiv N tileDim := by
  simp only [tileDim, ceilDiv]
  omega

/-- C5: the launch covers (N × F) by ceil(N/16) × ceil(F/16) tiles of 16×16
threads; a thread whose derived (n, f) is out of range writes nothing, and
each in-range (n, f) is written by exactly one thread of the grid — no
element is left unwritten or written twice, for any N and F. -/
theorem launch_grid_partitions (features : Tensor3) (points : Tensor2) :
    (∀ t : ThreadId, ¬(t.n < features.size0 ∧ t.f < features.size2) →
      forwardThreadWrite features points t = none) ∧
    (∀ n f, n < features.size0 → f < features.size2 →
      ∃! t : ThreadId, t.inGrid features.size0 features.size2 ∧
        forwardThreadWrite features points t =
          some ((n, f), forwardBody features points n f)) := by
  constructor
  · intro t ht
    simp only [forwardThreadWrite, if_neg ht]
  · intro n f hn hf
    refine ⟨⟨n / tileDim, f / tileDim, n % tileDim, f % tileDim⟩, ⟨?_, ?_⟩, ?_⟩
    · refine ⟨div_lt_ceilDiv n _ hn, div_lt_ceilDiv f _ hf, ?_, ?_⟩ <;>
        · simp only [tileDim]; omega
    · have htn : (ThreadId.mk (n / tileDim) (f / tileDim) (n % tileDim)
          (f % tileDim)).n = n := by
        simp only [ThreadId.n, tileDim]; omega
      have htf : (ThreadId.mk (n / tileDim) (f / tileDim) (n % tileDim)
          (f % tileDim)).f = f := by
        simp only [ThreadId.f, tileDim]; omega
      simp only [forwardThreadWrite, htn, htf]
      rw [if_pos ⟨hn, hf⟩]
    · rintro t ⟨⟨-, -, h3, h4⟩, hw⟩
      simp only [forwardThreadWrite] at hw
      by_cases hg : t.n < features.size0 ∧ t.f < features.size2
      · rw [if_pos hg] at hw
        have hnf : t.n = n ∧ t.f = f := by
          have := (Option.some_inj.mp hw)
          exact ⟨congrArg (fun p => p.1.1) this, congrArg (fun p => p.1.2) this⟩
        have e1 : tileDim * t.blockIdxX + t.threadIdxX = n := hnf.1
        have e2 : tileDim * t.blockIdxY + t.threadIdxY = f := hnf.2
        simp only [tileDim] at e1 e2 h3 h4
        ext <;> simp only [tileDim] <;> omega
      · rw [if_neg hg] at hw
        exact absurd hw (by simp)

/-- Witness for C5 on a 17-cube, 5-channel problem (neither divisible by 16):
the element (16, 3) is produced by exactly one thread of the grid. -/
theorem launch_grid_partitions_witness :
    16 < gridFeatures.size0 ∧ 3 < gridFeatures.size2 ∧
    ∃! t : ThreadId, t.inGrid gridFeatures.size0 gridFeatures.size2 ∧
      forwardThreadWrite gridFeatures gridPoints t =
        some ((16, 3), forwardBody gridFeatures gridPoints 16 3) :=
  ⟨by decide, by decide,
   (launch_grid_partitions gridFeatures gridPoints).2 16 3
     (by decide) (by decide)⟩

/-- C4 counterexample: `badPoints` has last axis 2 instead of 3, yet the
forward call is not rejected — it dispatches and writes the output (here the
value 1 at (0, 0), computed while reading the out-of-range point column 2). -/
theorem shape_mismatch_not_rejected :
    badPoints.size1 ≠ 3 ∧
    outputAt (trilinear_forward_cu onesFeatures badPoints) 0 0 = some 1 := by
  constructor
  · decide
  · show some ((forwardOutput onesFeatures badPoints).data 0 0) = some 1
    norm_num [forwardOutput, forwardBody, normalize, coefA, coefB, coefC,
      coefD, onesFeatures, badPoints]

/-- C4 amended: neither host call performs any shape validation — for all
argument shapes, including Points' last axis ≠ 3 and inconsistent N or F
across arguments, both calls succeed, reading N and F from Features and
dispatching unconditionally, and return a buffer of shape (N, F) resp.
(N, 8, F). -/
theorem host_calls_never_reject (dL : Tensor2) (features : Tensor3)
    (points : Tensor2) :
    (∃ out, trilinear_forward_cu features points = Except.ok out ∧
      out.size0 = features.size0 ∧ out.size1 = features.size2) ∧
    (∃ grad, trilinear_backward_cu dL features points = Except.ok grad ∧
      grad.size0 = features.size0 ∧ grad.size1 = 8 ∧
      grad.size2 = features.size2) :=
  ⟨⟨forwardOutput features points, rfl, rfl, rfl⟩,
   ⟨backwardOutput dL features points, rfl, rfl, rfl, rfl⟩⟩

end Trilinear
